import Mathlib

/-!
Verification of the form-state persistence subsystem of `swapmodal`:
the keyed snapshot store (`useFormStateStore`) and the persistent form
session hook (`usePersistForm`), shallowly embedded from the TypeScript
source.

Modelling conventions:
* JavaScript runtime values that flow through the store are modelled by
  `JSVal`; form snapshots are flat string-valued field maps (the store
  treats them as opaque blobs, so nesting is never observed).
* The zustand record `formStates : Record<string, any>` is modelled as a
  duplicate-key-free association list `List (String × JSVal)`; object
  spread update (`{...m, [k]: v}`) replaces the entry in place or appends.
* Machine time is `Nat` milliseconds; the cooperative event loop is made
  explicit: timers are stored with their absolute fire time and are fired
  by `fireDue` before any later event is processed.
-/

set_option autoImplicit false

/-- A JavaScript runtime value as it can appear in the form-state store.
Objects are flat field maps (field values kept as opaque strings), which
is all the persistence layer ever stores or compares. -/
inductive JSVal where
  | vNull
  | vUndefined
  | vBool (b : Bool)
  | vNum (n : Int)
  | vStr (s : String)
  | vObj (fields : List (String × String))
deriving DecidableEq, Repr

/-- JavaScript truthiness: `null`, `undefined`, `false`, `0` and `""` are
falsy; every other value (objects included) is truthy. -/
def JSVal.truthy : JSVal → Bool
  | .vNull => false
  | .vUndefined => false
  | .vBool b => b
  | .vNum n => n != 0
  | .vStr s => s ≠ ""
  | .vObj _ => true

/-- The store state: `formStates : Record<string, any>` from
`useFormStateStore`, as an association list with unique keys. -/
def Store := List (String × JSVal)
deriving DecidableEq, Repr

/-- Record field read `formStates[key]`: `none` stands for `undefined`
(key absent). -/
def Store.lookup : Store → String → Option JSVal
  | [], _ => none
  | p :: rest, k => if p.1 = k then some p.2 else Store.lookup rest k

/-- `setFormState` (store source, lines 38-45): object-spread update
`{...store.formStates, [key]: state}` — replace the entry for `key` in
place, or append it when absent. Always succeeds, no shape validation. -/
def setFormState : Store → String → JSVal → Store
  | [], k, v => [(k, v)]
  | p :: rest, k, v =>
    if p.1 = k then (k, v) :: rest else p :: setFormState rest k v

/-- `getFormState` (store source, lines 46-48):
`get().formStates[key] || null` — the stored value when present and
truthy, otherwise the absent sentinel `null`. -/
def getFormState (m : Store) (k : String) : JSVal :=
  match m.lookup k with
  | some v => if v.truthy then v else JSVal.vNull
  | none => JSVal.vNull

/-- `clearFormState` (store source, lines 49-55): rest-destructuring
`const { [key]: _, ...rest } = store.formStates` — remove the entry for
`key`, a no-op when absent. -/
def clearFormState : Store → String → Store
  | [], _ => []
  | p :: rest, k =>
    if p.1 = k then clearFormState rest k else p :: clearFormState rest k

/-- `clearAllFormStates` (store source, lines 56-58). -/
def clearAllFormStates (_ : Store) : Store := []

theorem lookup_setFormState_self (m : Store) (k : String) (v : JSVal) :
    (setFormState m k v).lookup k = some v := by
  induction m with
  | nil => simp [setFormState, Store.lookup]
  | cons p rest ih =>
    by_cases h : p.1 = k
    · simp [setFormState, h, Store.lookup]
    · simp [setFormState, h, Store.lookup, ih]

theorem lookup_setFormState_other (m : Store) (k k' : String) (v : JSVal)
    (h : k ≠ k') : (setFormState m k v).lookup k' = m.lookup k' := by
  induction m with
  | nil => simp [setFormState, Store.lookup, h]
  | cons p rest ih =>
    by_cases hp : p.1 = k
    · have h1 : ¬ (k = k') := h
      have h2 : ¬ (p.1 = k') := by rw [hp]; exact h1
      simp [setFormState, hp, Store.lookup, h1, h2]
    · have h3 : ¬ (k' = k) := fun e => h e.symm
      by_cases hk' : p.1 = k'
      · simp [setFormState, hp, Store.lookup, hk', h3]
      · simp [setFormState, hp, Store.lookup, hk', ih]

theorem lookup_clearFormState_self (m : Store) (k : String) :
    (clearFormState m k).lookup k = none := by
  induction m with
  | nil => simp [clearFormState, Store.lookup]
  | cons p rest ih =>
    by_cases h : p.1 = k
    · simpa [clearFormState, h, Store.lookup] using ih
    · simpa [clearFormState, h, Store.lookup] using ih

theorem lookup_clearFormState_other (m : Store) (k k' : String)
    (h : k ≠ k') : (clearFormState m k).lookup k' = m.lookup k' := by
  induction m with
  | nil => simp [clearFormState, Store.lookup]
  | cons p rest ih =>
    have h3 : ¬ (k' = k) := Ne.symm h
    by_cases hp : p.1 = k
    · have h2 : ¬ (p.1 = k') := by rw [hp]; exact h
      simp [clearFormState, hp, Store.lookup, h2, ih, h]
    · by_cases hk' : p.1 = k'
      · simp [clearFormState, hp, Store.lookup, hk', h3]
      · simp [clearFormState, hp, Store.lookup, hk', ih]

/-- The whole observable state of one `usePersistForm` session together
with the shared store and the event-loop timer queue.  Mutable refs of
the hook (`hasRestored`, `isInitialMount`, `isResetting`,
`debounceTimerRef`) are fields; `pending` carries the debounce timer's
absolute fire time and the `values` captured by its closure;
`guardTimer` is the 100 ms cooldown timeout scheduled by `reset`;
`writes` logs every store write performed by a fired debounce timer. -/
structure Sys where
  key : String
  debounceMs : Nat
  store : Store
  form : JSVal
  hasRestored : Bool
  isInitialMount : Bool
  isResetting : Bool
  guardTimer : Option Nat
  pending : Option (Nat × JSVal)
  subscribed : Bool
  writes : List (Nat × JSVal)
deriving DecidableEq, Repr

/-- Fire every timer due at wall-clock time `t`.  The cooldown timeout
(`persistForm.ts` lines 129-131) clears `isResetting`; the debounce
timeout (lines 87-89) runs `setFormState(key, values)` — its body writes
the closure-captured `values` and reads nothing else (in particular it
never calls `getValues()`). -/
def fireDue (s : Sys) (t : Nat) : Sys :=
  let s1 :=
    match s.guardTimer with
    | some g =>
      if g ≤ t then { s with isResetting := false, guardTimer := none }
      else s
    | none => s
  match s1.pending with
  | some fv =>
    if fv.1 ≤ t then
      { s1 with store := setFormState s1.store s1.key fv.2,
                writes := s1.writes ++ [(fv.1, fv.2)],
                pending := none }
    else s1
  | none => s1

/-- `saveFormState` (`persistForm.ts` lines 78-92), called at time `t`
with the emitted `values`: bail out while `isResetting`; otherwise cancel
any pending debounce timer and schedule a new one that will fire
`debounceMs` later carrying `values`. -/
def saveFormState (s : Sys) (t : Nat) (values : JSVal) : Sys :=
  if s.isResetting then s
  else { s with pending := some (t + s.debounceMs, values) }

/-- A live-form change at time `t`: the form's values become `v`, and if
the session's watch subscription is active the callback of lines 99-103
runs — its guard `hasRestored.current || !isInitialMount.current` and
then `saveFormState(values)`.  Timers due by `t` fire first (cooperative
event loop). -/
def onChange (s : Sys) (t : Nat) (v : JSVal) : Sys :=
  let s1 := fireDue s t
  let s2 := { s1 with form := v }
  if s2.subscribed ∧ (s2.hasRestored ∨ ¬ s2.isInitialMount) then
    saveFormState s2 t v
  else s2

/-- The overriding `reset` (`persistForm.ts` lines 115-134) called at
time `t` with effective new values `newVals` (the supplied values, or
the form's original defaults when omitted): set `isResetting`, cancel
any pending debounce timer, apply the values to the live form
synchronously, clear this session's store entry, drop `hasRestored`,
and schedule the 100 ms cooldown that re-enables saving. -/
def resetOp (s : Sys) (t : Nat) (newVals : JSVal) : Sys :=
  let s1 := fireDue s t
  { s1 with isResetting := true,
            pending := none,
            form := newVals,
            store := clearFormState s1.store s1.key,
            hasRestored := false,
            guardTimer := some (t + 100) }

/-- The effect cleanup of `persistForm.ts` lines 105-112, run on
unmount: unsubscribe from the change stream and clear any pending
debounce timer.  Nothing else is touched. -/
def cleanupEffect (s : Sys) : Sys :=
  { s with subscribed := false, pending := none }

/-- One step of the mount sequence, recorded for ordering arguments. -/
inductive InitAction where
  | restoredFromStore (v : JSVal)
  | subscribedWatch
deriving DecidableEq, Repr

/-- Render-time initialization (`persistForm.ts` lines 48-65): the
`initialDefaultValues` memo computes `getFormState(key) || defaultValues`
and `useForm` starts the live form on that choice; all refs start at
their initial values and no timer or subscription exists yet. -/
def renderInit (store : Store) (key : String) (debounceMs : Nat)
    (defaults : JSVal) : Sys :=
  let saved := getFormState store key
  { key := key, debounceMs := debounceMs, store := store,
    form := if saved.truthy then saved else defaults,
    hasRestored := false, isInitialMount := true, isResetting := false,
    guardTimer := none, pending := none, subscribed := false,
    writes := [] }

/-- The restoration effect (`persistForm.ts` lines 67-76): on the first
mount, re-read the store and apply a truthy saved snapshot to the live
form via `form.reset(saved)`, marking `hasRestored`; either way the
initial-mount flag is dropped. -/
def restoreEffect (s : Sys) : Sys × List InitAction :=
  if s.isInitialMount ∧ ¬ s.hasRestored then
    let saved := getFormState s.store s.key
    if saved.truthy then
      ({ s with form := saved, hasRestored := true, isInitialMount := false },
        [InitAction.restoredFromStore saved])
    else
      ({ s with isInitialMount := false }, [])
  else (s, [])

/-- The subscription effect (`persistForm.ts` lines 94-113): bail out
while still in the initial mount, otherwise subscribe to `form.watch`. -/
def subscribeEffect (s : Sys) : Sys × List InitAction :=
  if s.isInitialMount then (s, [])
  else ({ s with subscribed := true }, [InitAction.subscribedWatch])

/-- A full mount: render-time initialization, then the two effects in
their declaration order (the order React runs them in).  The returned
log records which initialization steps happened and in which order. -/
def mountWithLog (store : Store) (key : String) (debounceMs : Nat)
    (defaults : JSVal) : Sys × List InitAction :=
  let s0 := renderInit store key debounceMs defaults
  let r1 := restoreEffect s0
  let r2 := subscribeEffect r1.1
  (r2.1, r1.2 ++ r2.2)

/-- A mounted session (the state component of `mountWithLog`). -/
def mount (store : Store) (key : String) (debounceMs : Nat)
    (defaults : JSVal) : Sys :=
  (mountWithLog store key debounceMs defaults).1

/-- Process a list of timed change events in order. -/
def runChanges (s : Sys) (cs : List (Nat × JSVal)) : Sys :=
  cs.foldl (fun acc c => onChange acc c.1 c.2) s

/-- C4 as stated fails: the store's `get` coalesces stored falsy values
with `|| null`, so `set(k, false)` followed by `get(k)` returns `null`,
not a value deep-equal to `false`. -/
theorem C4_counterexample :
    getFormState (setFormState [] "k" (JSVal.vBool false)) "k"
      = JSVal.vNull
    ∧ JSVal.vNull ≠ JSVal.vBool false := by
  constructor
  · rfl
  · decide

/-- C4 amended: for any snapshot `S` that is truthy (in particular every
object snapshot) or is `null` itself, `set(k, S)` followed by `get(k)`
returns a value deep-equal to `S`, with no shape validation; a falsy
non-null snapshot is stored but read back as the absent sentinel `null`. -/
theorem C4_roundtrip (m : Store) (k : String) (S : JSVal)
    (h : S.truthy = true ∨ S = JSVal.vNull) :
    getFormState (setFormState m k S) k = S := by
  rcases h with h | h
  · simp [getFormState, lookup_setFormState_self, h]
  · subst h
    simp [getFormState, lookup_setFormState_self, JSVal.truthy]

theorem C4_roundtrip_witness :
    getFormState (setFormState [] "form" (JSVal.vObj [("name", "ab")])) "form"
      = JSVal.vObj [("name", "ab")] :=
  C4_roundtrip [] "form" (JSVal.vObj [("name", "ab")]) (Or.inl rfl)

/-- C8: key independence of the store — `set` under one key leaves every
other key's entry unchanged, and `clear k1` removes exactly `k1`'s entry
while leaving any other key's entry untouched. -/
theorem C8_key_independence (m : Store) (k1 k2 : String) (v : JSVal)
    (h : k1 ≠ k2) :
    getFormState (setFormState m k1 v) k2 = getFormState m k2
    ∧ getFormState (clearFormState m k1) k2 = getFormState m k2
    ∧ getFormState (clearFormState m k1) k1 = JSVal.vNull := by
  refine ⟨?_, ?_, ?_⟩
  · simp [getFormState, lookup_setFormState_other m k1 k2 v h]
  · simp [getFormState, lookup_clearFormState_other m k1 k2 h]
  · simp [getFormState, lookup_clearFormState_self m k1]

theorem C8_key_independence_witness :
    ("k1" : String) ≠ "k2"
    ∧ (getFormState
        (setFormState [("k2", JSVal.vObj [("name", "b")])] "k1"
          (JSVal.vObj [("name", "a")])) "k2"
        = getFormState [("k2", JSVal.vObj [("name", "b")])] "k2"
      ∧ getFormState
          (clearFormState [("k2", JSVal.vObj [("name", "b")])] "k1") "k2"
          = getFormState [("k2", JSVal.vObj [("name", "b")])] "k2"
      ∧ getFormState
          (clearFormState [("k2", JSVal.vObj [("name", "b")])] "k1") "k1"
          = JSVal.vNull) :=
  ⟨by decide,
    C8_key_independence [("k2", JSVal.vObj [("name", "b")])] "k1" "k2"
      (JSVal.vObj [("name", "a")]) (by decide)⟩

/-- The member names of the wrapped form handle, as the spec's
`FormHandle` capability gives them (watch / reset / getValues /
setValue). -/
def formHandleMembers : List String :=
  ["watch", "reset", "getValues", "setValue"]

/-- The object returned by `usePersistForm` (`persistForm.ts` lines
136-139): `{ ...form, reset }` — the spread of the wrapped form handle
with the overriding `reset`; its key set is the form handle's keys plus
`reset`, and nothing else. -/
def persistFormReturnMembers (formMembers : List String) : List String :=
  if "reset" ∈ formMembers then formMembers else formMembers ++ ["reset"]

/-- C1 fails on the code: the object returned by `usePersistForm`
exposes exactly the wrapped form handle's members with `reset`
overridden — it has no `getPersistValues` and no `clearPersist` member,
although the repository's own tests call both on it. -/
theorem C1_return_surface :
    persistFormReturnMembers formHandleMembers = formHandleMembers
    ∧ "getPersistValues" ∉ persistFormReturnMembers formHandleMembers
    ∧ "clearPersist" ∉ persistFormReturnMembers formHandleMembers
    ∧ "reset" ∈ persistFormReturnMembers formHandleMembers := by
  decide

/-- Construction of a persistent form session (`usePersistForm`,
`persistForm.ts` lines 45-65 plus mount effects).  Line 48 destructures
the options with `debounceMs` defaulting to 300; no validation of `key`
occurs anywhere in the body and nothing is thrown, so the error channel
of the embedding is never used. -/
def usePersistFormConstruct (store : Store) (key : String)
    (debounceMs : Option Nat) (defaults : JSVal) : Except String Sys :=
  Except.ok (mount store key (debounceMs.getD 300) defaults)

/-- C2 as stated fails: construction with the empty-string key does not
fail fast — it succeeds, and the resulting session goes on to persist
its snapshots under the empty-string store key. -/
theorem C2_counterexample :
    usePersistFormConstruct [] "" none (JSVal.vObj [("name", "")])
      = Except.ok (mount [] "" 300 (JSVal.vObj [("name", "")]))
    ∧ (fireDue (onChange (mount [] "" 300 (JSVal.vObj [("name", "")])) 0
          (JSVal.vObj [("name", "x")])) 300).store.lookup ""
      = some (JSVal.vObj [("name", "x")]) :=
  ⟨rfl, by decide⟩

/-- C2 amended: construction performs no key validation and never fails;
with an empty key the session is created, subscribes, and uses the empty
string as its (shared) persistence bucket. -/
theorem C2_no_key_validation (store : Store) (d : Option Nat)
    (defaults : JSVal) :
    ∃ s : Sys, usePersistFormConstruct store "" d defaults = Except.ok s
      ∧ s.key = "" ∧ s.subscribed = true := by
  refine ⟨mount store "" (d.getD 300) defaults, rfl, ?_, ?_⟩
  · by_cases h : (getFormState store "").truthy <;>
      simp [mount, mountWithLog, renderInit, restoreEffect, subscribeEffect, h]
  · by_cases h : (getFormState store "").truthy <;>
      simp [mount, mountWithLog, renderInit, restoreEffect, subscribeEffect, h]

/-- Classification of a JavaScript value when used as a `create`
candidate: a callable function, a truthy value that is not callable, or
a falsy value. -/
inductive JSCallable where
  | callable
  | truthyNotCallable
  | falsy
deriving DecidableEq, Repr

/-- JavaScript `a || b` over create candidates. -/
def jsOrCandidate (a b : JSCallable) : JSCallable :=
  match a with
  | JSCallable.falsy => b
  | x => x

/-- How the resolved zustand module behaves in the expressions of
`useFormStateStore.ts` line 5: the classifications of `zustand.create`,
`zustand.default?.create`, and `zustand` itself.  (When the module value
itself is `null`/`undefined`, the member accesses throw inside the
`try`, which the `catch` turns into the install error — the same error
outcome this model reaches through the falsy chain.) -/
structure ZustandModuleShape where
  createMember : JSCallable
  defaultCreateMember : JSCallable
  selfValue : JSCallable
deriving DecidableEq, Repr

/-- Module-load logic of `useFormStateStore.ts` lines 1-61: the
`require` call (whose failure, `resolved = none`, raises the install
error of lines 6-15), the `||`-fallback chain of line 5, the explicit
falsy check of lines 17-26, and the store-hook construction
`(create)()(storeConfig)` of line 61, which raises a `TypeError` at
module load when the chosen `create` is not callable.  `Except.ok`
means the store hook was built and store operations became available. -/
def loadFormStateStore (resolved : Option ZustandModuleShape) :
    Except String Unit :=
  match resolved with
  | none => Except.error "zustand is required"
  | some m =>
    match jsOrCandidate m.createMember
        (jsOrCandidate m.defaultCreateMember m.selfValue) with
    | JSCallable.falsy => Except.error "zustand is required"
    | JSCallable.truthyNotCallable =>
      Except.error "TypeError: create is not a function"
    | JSCallable.callable => Except.ok ()

/-- C10: loading the store module fails fast — every resolution outcome
either raises an error during module load (before any store operation
exists) or succeeds having located a callable `create` through the
fallback chain; no path leaves store operations available over an
unusable backend. -/
theorem C10_load_fail_fast (resolved : Option ZustandModuleShape) :
    (∃ e, loadFormStateStore resolved = Except.error e)
    ∨ (loadFormStateStore resolved = Except.ok ()
        ∧ ∃ m, resolved = some m
          ∧ jsOrCandidate m.createMember
              (jsOrCandidate m.defaultCreateMember m.selfValue)
            = JSCallable.callable) := by
  match resolved with
  | none => exact Or.inl ⟨"zustand is required", rfl⟩
  | some m =>
    cases h : jsOrCandidate m.createMember
        (jsOrCandidate m.defaultCreateMember m.selfValue) with
    | callable =>
      exact Or.inr ⟨by simp [loadFormStateStore, h], m, rfl, h⟩
    | truthyNotCallable =>
      exact Or.inl ⟨"TypeError: create is not a function",
        by simp [loadFormStateStore, h]⟩
    | falsy =>
      exact Or.inl ⟨"zustand is required", by simp [loadFormStateStore, h]⟩

/-- C7: on every mount the watch subscription is established only after
the restoration step has completed — the mount log is the (possible)
restore action followed by the subscription action, the restored
snapshot (when one exists) is already on the live form, the store is
never written during mount, and no timer is involved in the ordering
(`pending = none`): the guarantee is the structural effect order, not a
delay. -/
theorem C7_subscribe_after_restore (store : Store) (key : String)
    (D : Nat) (defaults : JSVal) :
    (mountWithLog store key D defaults).1.subscribed = true
    ∧ (mountWithLog store key D defaults).2
      = (if (getFormState store key).truthy then
          [InitAction.restoredFromStore (getFormState store key)]
         else []) ++ [InitAction.subscribedWatch]
    ∧ (mountWithLog store key D defaults).1.store = store
    ∧ (mountWithLog store key D defaults).1.writes = []
    ∧ (mountWithLog store key D defaults).1.pending = none
    ∧ (mountWithLog store key D defaults).1.form
      = (if (getFormState store key).truthy then getFormState store key
         else defaults) := by
  by_cases h : (getFormState store key).truthy <;>
    simp [mountWithLog, renderInit, restoreEffect, subscribeEffect, h]

/-- C9: unmount cleanup cancels any pending debounce timer and drops the
watch subscription, itself performs no store write, and no debounce
write can occur afterwards — advancing the clock arbitrarily far past
the unmount fires nothing that touches the store or the write log. -/
theorem C9_unmount_no_write (s : Sys) :
    (cleanupEffect s).pending = none
    ∧ (cleanupEffect s).subscribed = false
    ∧ (cleanupEffect s).store = s.store
    ∧ (cleanupEffect s).writes = s.writes
    ∧ ∀ t : Nat, (fireDue (cleanupEffect s) t).store = s.store
        ∧ (fireDue (cleanupEffect s) t).writes = s.writes
        ∧ (fireDue (cleanupEffect s) t).pending = none := by
  refine ⟨rfl, rfl, rfl, rfl, fun t => ?_⟩
  cases h : s.guardTimer with
  | none => simp [cleanupEffect, fireDue, h]
  | some g =>
    by_cases hg : g ≤ t <;> simp [cleanupEffect, fireDue, h, hg]

/-- When the pending debounce timer (if any) has not yet reached its
fire time at `t`, firing due timers at `t` can at most clear the
cooldown flag; nothing else changes. -/
theorem fireDue_of_not_due (s : Sys) (t : Nat)
    (h : s.pending.all (fun fv => decide (t < fv.1)) = true) :
    fireDue s t = s
    ∨ fireDue s t = { s with isResetting := false, guardTimer := none } := by
  have hpend : ∀ fv, s.pending = some fv → ¬ (fv.1 ≤ t) := by
    intro fv hfv
    rw [hfv] at h
    have hlt : t < fv.1 := by simpa [Option.all] using h
    omega
  unfold fireDue
  cases hg : s.guardTimer with
  | none =>
    cases hp : s.pending with
    | none => left; simp [hp]
    | some fv => left; simp [hp, hpend fv hp]
  | some g =>
    by_cases hle : g ≤ t
    · cases hp : s.pending with
      | none => right; simp [hle, hp]
      | some fv => right; simp [hle, hp, hpend fv hp]
    · cases hp : s.pending with
      | none => left; simp [hle, hp]
      | some fv => left; simp [hle, hp, hpend fv hp]

/-- Closed form of `reset` when no debounce timer is due: the cooldown
starts, the timer slot and store entry are cleared, the form takes the
reset values, and the write log is untouched. -/
theorem resetOp_eq (s : Sys) (t : Nat) (v : JSVal)
    (h : s.pending.all (fun fv => decide (t < fv.1)) = true) :
    resetOp s t v =
      { s with isResetting := true, guardTimer := some (t + 100),
               pending := none, form := v,
               store := clearFormState s.store s.key,
               hasRestored := false } := by
  rcases fireDue_of_not_due s t h with h1 | h1 <;>
    · simp only [resetOp]
      rw [h1]

/-- C6: a `reset` at time `t` — with any pending debounce timer not yet
due — cancels that timer so it never fires (the write log never grows
afterwards and the store entry for the session's key stays absent at
every later time, absent further user changes), removes the session's
store entry immediately, applies the reset values to the live form, and
while the cooldown guard is active a newly arriving change schedules no
timer and causes no store write. -/
theorem C6_reset_clears_and_suppresses (s : Sys) (t : Nat) (newVals : JSVal)
    (h : s.pending.all (fun fv => decide (t < fv.1)) = true) :
    (resetOp s t newVals).pending = none
    ∧ (resetOp s t newVals).writes = s.writes
    ∧ (resetOp s t newVals).form = newVals
    ∧ (resetOp s t newVals).isResetting = true
    ∧ getFormState (resetOp s t newVals).store s.key = JSVal.vNull
    ∧ (∀ u : Nat, (fireDue (resetOp s t newVals) u).writes = s.writes
        ∧ getFormState (fireDue (resetOp s t newVals) u).store s.key
          = JSVal.vNull
        ∧ (fireDue (resetOp s t newVals) u).pending = none)
    ∧ (∀ (u : Nat) (w : JSVal), u < t + 100 →
        (onChange (resetOp s t newVals) u w).pending = none
        ∧ (onChange (resetOp s t newVals) u w).store
          = (resetOp s t newVals).store
        ∧ (onChange (resetOp s t newVals) u w).writes = s.writes) := by
  rw [resetOp_eq s t newVals h]
  have hclear : getFormState (clearFormState s.store s.key) s.key
      = JSVal.vNull := by
    simp [getFormState, lookup_clearFormState_self]
  refine ⟨rfl, rfl, rfl, rfl, hclear, fun u => ?_, fun u w hu => ?_⟩
  · by_cases hg : t + 100 ≤ u <;> simp [fireDue, hg, hclear]
  · have hg : ¬ (t + 100 ≤ u) := by omega
    by_cases hcond : s.subscribed = true ∧ ¬ s.isInitialMount = true <;>
      simp [onChange, fireDue, hg, saveFormState, hcond]

/-- A change arriving while no debounce timer is pending (and no
cooldown is active) on a subscribed, mounted session schedules a save:
the timer will fire `debounceMs` after the change, carrying the change's
values. -/
theorem onChange_schedules_fresh (s : Sys) (t : Nat) (v : JSVal)
    (hg : s.guardTimer = none) (hr : s.isResetting = false)
    (hsub : s.subscribed = true) (hmnt : s.isInitialMount = false)
    (hp : s.pending = none) :
    onChange s t v =
      { s with form := v, pending := some (t + s.debounceMs, v) } := by
  unfold onChange fireDue saveFormState
  simp [hg, hp, hsub, hmnt, hr]

/-- A change arriving while a not-yet-due debounce timer is pending (and
no cooldown is active) on a subscribed, mounted session
cancels-and-reschedules: same state, new form values, and a fresh timer
`debounceMs` after this change. -/
theorem onChange_reschedules (s : Sys) (t : Nat) (v : JSVal)
    (tp : Nat) (vp : JSVal)
    (hg : s.guardTimer = none) (hr : s.isResetting = false)
    (hsub : s.subscribed = true) (hmnt : s.isInitialMount = false)
    (hp : s.pending = some (tp, vp)) (hlt : t < tp) :
    onChange s t v =
      { s with form := v, pending := some (t + s.debounceMs, v) } := by
  have hnle : ¬ (tp ≤ t) := by omega
  unfold onChange fireDue saveFormState
  simp [hg, hp, hnle, hsub, hmnt, hr]

/-- Change timestamps each at or after the reference time `t0` and
strictly less than `D` after it, chained along the list. -/
def rapidlySpacedFrom (t0 D : Nat) : List (Nat × JSVal) → Bool
  | [] => true
  | c :: rest =>
    decide (t0 ≤ c.1) && decide (c.1 < t0 + D) && rapidlySpacedFrom c.1 D rest

/-- The last change of a burst `c0 :: cs`. -/
def lastChange (c0 : Nat × JSVal) : List (Nat × JSVal) → Nat × JSVal
  | [] => c0
  | c :: rest => lastChange c rest

/-- Processing a rapid burst while a timer for the previous change is
pending repeatedly cancels-and-reschedules, ending with the last
change's values on the form and a single pending timer for them. -/
theorem runChanges_rapid (D : Nat) (cs : List (Nat × JSVal)) :
    ∀ (s : Sys) (tp : Nat) (vp : JSVal),
    s.debounceMs = D → s.guardTimer = none → s.isResetting = false →
    s.subscribed = true → s.isInitialMount = false →
    s.pending = some (tp + D, vp) → s.form = vp →
    rapidlySpacedFrom tp D cs = true →
    runChanges s cs =
      { s with form := (lastChange (tp, vp) cs).2,
               pending := some ((lastChange (tp, vp) cs).1 + D,
                                (lastChange (tp, vp) cs).2) } := by
  induction cs with
  | nil =>
    intro s tp vp hD hg hr hsub hmnt hp hform _
    cases s
    simp only [runChanges, List.foldl_nil, lastChange]
    simp_all
  | cons c rest ih =>
    intro s tp vp hD hg hr hsub hmnt hp hform hspace
    have h1 : tp ≤ c.1 ∧ c.1 < tp + D ∧ rapidlySpacedFrom c.1 D rest = true := by
      simpa [rapidlySpacedFrom, Bool.and_eq_true, and_assoc] using hspace
    have hstep : onChange s c.1 c.2 =
        { s with form := c.2, pending := some (c.1 + s.debounceMs, c.2) } :=
      onChange_reschedules s c.1 c.2 (tp + D) vp hg hr hsub hmnt hp h1.2.1
    have hrec := ih { s with form := c.2,
                             pending := some (c.1 + s.debounceMs, c.2) }
      c.1 c.2 (by simp [hD]) (by simp [hg]) (by simp [hr]) (by simp [hsub])
      (by simp [hmnt]) (by simp [hD]) (by simp) h1.2.2
    have hfold : runChanges s (c :: rest)
        = runChanges (onChange s c.1 c.2) rest := by
      simp [runChanges]
    rw [hfold, hstep, hrec]
    simp [lastChange]

/-- C5: trailing-edge debounce collapse — from an idle mounted session,
a burst of N ≥ 1 changes each arriving less than `D` after the previous
one produces no store write during the burst, leaves exactly one pending
timer carrying the last change's values and due `D` after the last
change; nothing fires at any earlier time (quiet period), and firing at
that due time appends exactly one write, of the last change's values,
`D` after the last change. -/
theorem C5_debounce_collapse (D : Nat) (s : Sys) (c0 : Nat × JSVal)
    (cs : List (Nat × JSVal))
    (hD : s.debounceMs = D) (hg : s.guardTimer = none)
    (hr : s.isResetting = false) (hsub : s.subscribed = true)
    (hmnt : s.isInitialMount = false) (hp : s.pending = none)
    (hspace : rapidlySpacedFrom c0.1 D cs = true) :
    (runChanges s (c0 :: cs)).writes = s.writes
    ∧ (runChanges s (c0 :: cs)).store = s.store
    ∧ (runChanges s (c0 :: cs)).pending
      = some ((lastChange c0 cs).1 + D, (lastChange c0 cs).2)
    ∧ (runChanges s (c0 :: cs)).form = (lastChange c0 cs).2
    ∧ (∀ u : Nat, u < (lastChange c0 cs).1 + D →
        fireDue (runChanges s (c0 :: cs)) u = runChanges s (c0 :: cs))
    ∧ (fireDue (runChanges s (c0 :: cs)) ((lastChange c0 cs).1 + D)).writes
      = s.writes ++ [((lastChange c0 cs).1 + D, (lastChange c0 cs).2)]
    ∧ (fireDue (runChanges s (c0 :: cs)) ((lastChange c0 cs).1 + D)).store
      = setFormState s.store s.key (lastChange c0 cs).2
    ∧ (fireDue (runChanges s (c0 :: cs)) ((lastChange c0 cs).1 + D)).pending
      = none := by
  have hstep : onChange s c0.1 c0.2 =
      { s with form := c0.2, pending := some (c0.1 + s.debounceMs, c0.2) } :=
    onChange_schedules_fresh s c0.1 c0.2 hg hr hsub hmnt hp
  have hfold : runChanges s (c0 :: cs)
      = runChanges (onChange s c0.1 c0.2) cs := by
    simp [runChanges]
  have hrec := runChanges_rapid D cs
    { s with form := c0.2, pending := some (c0.1 + s.debounceMs, c0.2) }
    c0.1 c0.2 (by simp [hD]) (by simp [hg]) (by simp [hr]) (by simp [hsub])
    (by simp [hmnt]) (by simp [hD]) (by simp) hspace
  have hrun : runChanges s (c0 :: cs) =
      { s with form := (lastChange c0 cs).2,
               pending := some ((lastChange c0 cs).1 + D,
                                (lastChange c0 cs).2) } := by
    rw [hfold, hstep, hrec]
  rw [hrun]
  refine ⟨rfl, rfl, rfl, rfl, fun u hu => ?_, ?_, ?_, ?_⟩
  · have hnle : ¬ ((lastChange c0 cs).1 + D ≤ u) := by omega
    simp [fireDue, hg, hnle]
  · simp [fireDue, hg]
  · simp [fireDue, hg]
  · simp [fireDue, hg]

/-- A concrete mounted session (key `f`, debounce 300 ms, empty store)
that received one change at t = 0 and so holds one scheduled save. -/
def sampleBurstState : Sys :=
  onChange (mount [] "f" 300 (JSVal.vObj [("name", "")])) 0
    (JSVal.vObj [("name", "a")])

theorem C5_debounce_collapse_witness :
    (runChanges (mount [] "f" 300 (JSVal.vObj [("name", "")]))
        [(0, JSVal.vStr "a"), (10, JSVal.vStr "ab"), (20, JSVal.vStr "abc")]).writes
      = (mount [] "f" 300 (JSVal.vObj [("name", "")])).writes
    ∧ (fireDue
        (runChanges (mount [] "f" 300 (JSVal.vObj [("name", "")]))
          [(0, JSVal.vStr "a"), (10, JSVal.vStr "ab"), (20, JSVal.vStr "abc")])
        ((lastChange (0, JSVal.vStr "a")
            [(10, JSVal.vStr "ab"), (20, JSVal.vStr "abc")]).1 + 300)).writes
      = (mount [] "f" 300 (JSVal.vObj [("name", "")])).writes
        ++ [((lastChange (0, JSVal.vStr "a")
              [(10, JSVal.vStr "ab"), (20, JSVal.vStr "abc")]).1 + 300,
             (lastChange (0, JSVal.vStr "a")
              [(10, JSVal.vStr "ab"), (20, JSVal.vStr "abc")]).2)] :=
  ⟨(C5_debounce_collapse 300 (mount [] "f" 300 (JSVal.vObj [("name", "")]))
      (0, JSVal.vStr "a") [(10, JSVal.vStr "ab"), (20, JSVal.vStr "abc")]
      (by decide) (by decide) (by decide) (by decide) (by decide) (by decide)
      (by decide)).1,
    (C5_debounce_collapse 300 (mount [] "f" 300 (JSVal.vObj [("name", "")]))
      (0, JSVal.vStr "a") [(10, JSVal.vStr "ab"), (20, JSVal.vStr "abc")]
      (by decide) (by decide) (by decide) (by decide) (by decide) (by decide)
      (by decide)).2.2.2.2.2.1⟩

theorem C6_reset_clears_and_suppresses_witness :
    (sampleBurstState.pending.all (fun fv => decide (150 < fv.1)) = true)
    ∧ (resetOp sampleBurstState 150 (JSVal.vObj [("name", "")])).pending = none
    ∧ getFormState
        (resetOp sampleBurstState 150 (JSVal.vObj [("name", "")])).store
        sampleBurstState.key
      = JSVal.vNull :=
  ⟨by decide,
    (C6_reset_clears_and_suppresses sampleBurstState 150
      (JSVal.vObj [("name", "")]) (by decide)).1,
    (C6_reset_clears_and_suppresses sampleBurstState 150
      (JSVal.vObj [("name", "")]) (by decide)).2.2.2.2.1⟩

/-- C3 as stated fails: in this concrete run the debounce save scheduled
at t = 0 captures the values `[(name, a)]`, and the write performed when
the timer fires at t = 300 is exactly that captured value — the timer
callback (`persistForm.ts` lines 87-89) runs `setFormState(key, values)`
over its closure-captured argument and never re-reads `getValues()`,
contradicting the claim that the written value is not the values
captured at the moment the save was scheduled. -/
theorem C3_counterexample :
    sampleBurstState.pending = some (300, JSVal.vObj [("name", "a")])
    ∧ (fireDue sampleBurstState 300).writes
      = [(300, JSVal.vObj [("name", "a")])]
    ∧ (fireDue sampleBurstState 300).store.lookup "f"
      = some (JSVal.vObj [("name", "a")]) := by
  decide

/-- C3 amended: when the debounce timer fires, the value written under
the session's key is the `values` captured at the moment the save was
last scheduled; because every change cancels-and-reschedules carrying
its own fresh values, that captured value coincides with the live form's
values at fire time (absent mutations that bypass the watch stream) —
the code performs no `getValues()` re-read. -/
theorem C3_write_is_captured (s : Sys) (t u : Nat) (v : JSVal)
    (hg : s.guardTimer = none) (hr : s.isResetting = false)
    (hsub : s.subscribed = true) (hmnt : s.isInitialMount = false)
    (hpend : s.pending = none) (hu : t + s.debounceMs ≤ u) :
    (onChange s t v).form = v
    ∧ (onChange s t v).pending = some (t + s.debounceMs, v)
    ∧ (fireDue (onChange s t v) u).store = setFormState s.store s.key v
    ∧ (fireDue (onChange s t v) u).writes
      = s.writes ++ [(t + s.debounceMs, v)]
    ∧ (fireDue (onChange s t v) u).form = v := by
  have hstep := onChange_schedules_fresh s t v hg hr hsub hmnt hpend
  rw [hstep]
  refine ⟨rfl, rfl, ?_, ?_, ?_⟩ <;> simp [fireDue, hg, hu]

theorem C3_write_is_captured_witness :
    (fireDue (onChange (mount [] "f" 300 (JSVal.vObj [("name", "")])) 0
        (JSVal.vObj [("name", "a")])) 300).writes
      = (mount [] "f" 300 (JSVal.vObj [("name", "")])).writes
        ++ [(0 + 300, JSVal.vObj [("name", "a")])] :=
  (C3_write_is_captured (mount [] "f" 300 (JSVal.vObj [("name", "")])) 0 300
    (JSVal.vObj [("name", "a")]) (by decide) (by decide) (by decide)
    (by decide) (by decide) (by decide)).2.2.2.1
